import Mathlib

/-!
Verification of the whisper-local STT provider (src/provider.ts and the
inlined historical copy in src/unnamed/part_002) against its natural-language
specification. The TypeScript code is shallowly embedded: pure logic becomes
Lean functions, the mutable `this` state becomes explicit state passing, and
the outside world (health probes, the container runtime, the inference HTTP
endpoint) becomes explicit environment oracles. Machine integers do not occur
(ports and byte values are small JS numbers); audio buffers are byte lists.
-/

namespace WhisperLocal

/-- Bytes of an audio buffer (a Node `Buffer`), each byte a `Nat`. -/
abbrev Bytes := List Nat

/-- Caller-supplied configuration, `WhisperLocalConfig` of types.ts: every
field optional (`none` = property absent / `undefined`). Field values and
defaults are as inlined in src/unnamed/part_002 and §3 of the spec. -/
structure WhisperLocalConfig where
  image : Option String
  model : Option String
  port : Option Int
  language : Option String
  wordTimestamps : Option Bool
deriving DecidableEq, Repr

/-- The resolved configuration `Required<WhisperLocalConfig>` after merging
with defaults; immutable once the provider is constructed. -/
structure ResolvedConfig where
  image : String
  model : String
  port : Int
  language : String
  wordTimestamps : Bool
deriving DecidableEq, Repr

/-- The `DEFAULT_CONFIG` constant (src/unnamed/part_002, lines 44-50). -/
def DEFAULT_CONFIG : ResolvedConfig :=
  { image := "fedirz/faster-whisper-server:latest-cpu"
    model := "small"
    port := 8765
    language := "en"
    wordTimestamps := false }

/-- The `validModels` list checked by `validateConfig`
(src/unnamed/part_002, line 168; `VALID_MODELS` of types.ts). -/
def VALID_MODELS : List String := ["tiny", "base", "small", "medium", "large-v3"]

/-- The spread merge `{ ...DEFAULT_CONFIG, ...config }` performed by the
constructor (src/src/provider.ts, line 114): a caller-supplied field wins,
an absent one falls back to the default. -/
def mergeConfig (c : WhisperLocalConfig) : ResolvedConfig :=
  { image := c.image.getD DEFAULT_CONFIG.image
    model := c.model.getD DEFAULT_CONFIG.model
    port := c.port.getD DEFAULT_CONFIG.port
    language := c.language.getD DEFAULT_CONFIG.language
    wordTimestamps := c.wordTimestamps.getD DEFAULT_CONFIG.wordTimestamps }

/-- The error taxonomy of §7 of the spec. The TypeScript code throws plain
`Error` objects; each throw site corresponds to one constructor. -/
inductive WhisperError where
  /-- Thrown by `validateConfig` for a model outside `VALID_MODELS`. -/
  | invalidModel (model : String)
  /-- Thrown by `validateConfig` for a port outside 1024..65535. -/
  | invalidPort (port : Int)
  /-- Thrown by `sendAudio` on an ended session. -/
  | sessionClosed
  /-- Thrown by `waitForTranscript` when the stream was never ended. -/
  | transcriptTimeout
  /-- Thrown by `_doStartServer` when health never succeeds within 60 s. -/
  | serverStartTimeout
  /-- Thrown on a non-success HTTP status from the inference endpoint. -/
  | remoteServerError (status : Nat) (body : String)
  /-- A rejected `fetch` (network failure or aborted request). -/
  | networkError
  /-- A container create/start failure propagated out of `startContainer`. -/
  | containerError (msg : String)
deriving DecidableEq, Repr

/-- The `validateConfig` method (src/src/provider.ts, lines 122-129): the
model check runs first, then the port range check; it is a pure function of
the stored configuration, so by construction it touches no network or
container oracle. -/
def validateConfig (c : ResolvedConfig) : Except WhisperError Unit :=
  if c.model ∉ VALID_MODELS then .error (.invalidModel c.model)
  else if c.port < 1024 ∨ 65535 < c.port then .error (.invalidPort c.port)
  else .ok ()

/-- The fixed 60-second bound on a transcription request
(src/src/provider.ts, line 13). -/
def TRANSCRIPTION_TIMEOUT_MS : Nat := 60000

/-- Options passed to `createSession`/`transcribe`; only `language` is read
by the code. `none` stands for an absent property. -/
structure STTOptions where
  language : Option String
deriving DecidableEq, Repr

/-- A transcription HTTP request as the code assembles it: the POST target,
the concatenated multipart file payload, the `language` form field and the
abort bound. -/
structure TranscribeRequest where
  url : String
  fileBytes : Bytes
  language : String
  timeoutMs : Nat
deriving DecidableEq, Repr

/-- What one `fetch` of the transcription endpoint comes back with:
`success` is an `ok` response whose JSON body parsed to `{ text?: string }`;
`httpError` is a non-success status with its body text; `networkFailure`
is a rejected fetch (network error or the 60 s abort). -/
inductive FetchOutcome where
  | success (text : Option String)
  | httpError (status : Nat) (body : String)
  | networkFailure
deriving DecidableEq, Repr

/-- Environment oracle for the inference endpoint: the outcome each request
would get. -/
abbrev TranscribeEnv := TranscribeRequest → FetchOutcome

/-- How the code turns a fetch outcome into a result (src/src/provider.ts,
lines 65-71 and 155-161): non-success status throws with status and body,
a rejected fetch propagates, and a parsed body yields `text ?? ""`. -/
def requestResult : FetchOutcome → Except WhisperError String
  | .success text => .ok (text.getD "")
  | .httpError status body => .error (.remoteServerError status body)
  | .networkFailure => .error .networkError

/-- A transcription session (`WhisperLocalSession`, src/src/provider.ts,
lines 15-81): the server URL and options fixed at construction, the ordered
chunk buffer, and the `ended` flag. -/
structure WhisperLocalSession where
  serverUrl : String
  options : STTOptions
  chunks : List Bytes
  ended : Bool
deriving DecidableEq, Repr

/-- The `sendAudio` method (lines 24-29): throws once the session has ended,
otherwise pushes the chunk. -/
def sendAudio (s : WhisperLocalSession) (audio : Bytes) :
    Except WhisperError WhisperLocalSession :=
  if s.ended then .error .sessionClosed
  else .ok { s with chunks := s.chunks ++ [audio] }

/-- The `endAudio` method (lines 31-33): seals the session. -/
def endAudio (s : WhisperLocalSession) : WhisperLocalSession :=
  { s with ended := true }

/-- The `close` method (lines 77-80): marks the session ended and discards
the buffer. -/
def close (s : WhisperLocalSession) : WhisperLocalSession :=
  { s with ended := true, chunks := [] }

/-- The request `waitForTranscript` issues once the stream has ended
(lines 50-63): all chunks concatenated in arrival order, the session's
language defaulting to "en", under the fixed 60 s bound. -/
def sessionRequest (s : WhisperLocalSession) : TranscribeRequest :=
  { url := s.serverUrl ++ "/v1/audio/transcriptions"
    fileBytes := (s.chunks).flatten
    language := s.options.language.getD "en"
    timeoutMs := TRANSCRIPTION_TIMEOUT_MS }

/-- The `waitForTranscript` method (lines 40-75) in the single-caller
semantics: the 100 ms poll loop observes `this.ended`, which no other task
mutates during the wait, so the loop exits at once when the session has
ended and otherwise runs the window out and throws. The method writes no
session field, so the session comes back unchanged; the third component
lists the transcription requests issued. -/
def waitForTranscript (env : TranscribeEnv) (s : WhisperLocalSession)
    (timeoutMs : Nat := 30000) :
    Except WhisperError String × WhisperLocalSession × List TranscribeRequest :=
  if s.ended then
    (requestResult (env (sessionRequest s)), s, [sessionRequest s])
  else
    (.error .transcriptTimeout, s, [])

/-- Outcome of one health probe (`healthCheck`, src/src/provider.ts,
lines 167-177): either a response with its HTTP status, or a rejected fetch
(network error, or the 5-second `AbortSignal.timeout` firing). -/
inductive ProbeOutcome where
  | response (status : Nat)
  | failure
deriving DecidableEq, Repr

/-- The `Response.ok` predicate of fetch: status in 200..299. -/
def responseOk (status : Nat) : Bool :=
  decide (200 ≤ status) && decide (status < 300)

/-- The `healthCheck` method (src/src/provider.ts, lines 167-177): returns
`response.ok`, and the surrounding try/catch turns any rejected fetch into
`false`; a total Boolean function, so no exception escapes it. -/
def healthCheck : ProbeOutcome → Bool
  | .response status => responseOk status
  | .failure => false

/-- A stop or remove call issued to the container runtime during
`shutdown`, recorded so theorems can speak about which cleanup operations a
call performs. -/
inductive ContainerAction where
  | stop (cid : String)
  | remove (cid : String)
deriving DecidableEq, Repr

/-- Environment oracles for one provider: the outcome of the k-th health
probe the provider issues, the outcome of the k-th image pull and of the
k-th container create/start attempt (either the new container id or an
error), the outcomes of stop/remove by container id, and the inference
endpoint. -/
structure ProviderEnv where
  probe : Nat → ProbeOutcome
  pullResult : Nat → Except String Unit
  startResult : Nat → Except String String
  stopResult : String → Except String Unit
  removeResult : String → Except String Unit
  http : TranscribeEnv

/-- Mutable state of a `WhisperLocalProvider` (src/src/provider.ts,
lines 107-111) plus the oracle cursors: `probeCount`/`startCount` index into
the environment's probe and start oracles and double as ghost counters of
how many probes and container-start attempts have occurred. `guard` mirrors
whether `_startingServer` is set; `dockerLoaded` whether the lazy loading
of dockerode has run. -/
structure ProviderState where
  config : ResolvedConfig
  serverUrl : String
  containerId : Option String
  dockerLoaded : Bool
  guard : Bool
  probeCount : Nat
  startCount : Nat
deriving DecidableEq, Repr

/-- The constructor (src/src/provider.ts, lines 113-116): merges the
defaults, computes the base URL, and validates nothing. -/
def mkProvider (c : WhisperLocalConfig) : ProviderState :=
  { config := mergeConfig c
    serverUrl := "http://localhost:" ++ toString (mergeConfig c).port
    containerId := none
    dockerLoaded := false
    guard := false
    probeCount := 0
    startCount := 0 }

/-- One call of `this.healthCheck()` by the provider: consumes the next
probe outcome from the oracle. -/
def runHealthCheck (env : ProviderEnv) (st : ProviderState) :
    Bool × ProviderState :=
  (healthCheck (env.probe st.probeCount), { st with probeCount := st.probeCount + 1 })

/-- The `startContainer` method (src/src/provider.ts, lines 218-246):
loads dockerode, attempts a pull whose failure is swallowed (`catch {}`,
line 226-228), then creates and starts the container; a create/start
failure propagates. `startCount` counts every start attempt. -/
def startContainer (env : ProviderEnv) (st : ProviderState) :
    Except WhisperError Unit × ProviderState :=
  let st1 := { st with dockerLoaded := true, startCount := st.startCount + 1 }
  match env.startResult st.startCount with
  | .ok cid => (.ok (), { st1 with containerId := some cid })
  | .error e => (.error (.containerError e), st1)

/-- The health poll loop of `_doStartServer` (src/src/provider.ts,
lines 207-214): probe, and while the probe fails and less than `maxWait`
(60000 ms) has elapsed, sleep 1000 ms and probe again. `t` is the elapsed
time at the head of an iteration (probes are treated as instantaneous);
`fuel` bounds the recursion and is chosen large enough that the elapsed-time
check, not the fuel, ends every run. -/
def healthPollLoop (env : ProviderEnv) :
    Nat → ProviderState → Nat → Except WhisperError Unit × ProviderState
  | 0, st, _ => (.error .serverStartTimeout, st)
  | fuel + 1, st, t =>
    if 60000 ≤ t then (.error .serverStartTimeout, st)
    else
      let p := runHealthCheck env st
      if p.1 then (.ok (), p.2)
      else healthPollLoop env fuel p.2 (t + 1000)

/-- The `_doStartServer` method (src/src/provider.ts, lines 205-216):
start the container, then poll health every second for up to 60 seconds;
throw `ServerStartTimeout` when the ceiling is exceeded. -/
def doStartServer (env : ProviderEnv) (st : ProviderState) :
    Except WhisperError Unit × ProviderState :=
  match startContainer env st with
  | (.error e, st1) => (.error e, st1)
  | (.ok _, st1) => healthPollLoop env 100 st1 0

/-- The `ensureServerRunning` method (src/src/provider.ts, lines 192-203)
as a completed single-caller run: probe health; healthy returns at once;
otherwise register the start guard, run `_doStartServer`, and clear the
guard whatever the outcome (the `.finally` on line 199-201). The
`if (this._startingServer)` fast path never fires in a single-caller run
(the guard is only ever set inside this call); the interleaved model
below treats concurrent callers. -/
def ensureServerRunning (env : ProviderEnv) (st : ProviderState) :
    Except WhisperError Unit × ProviderState :=
  let p := runHealthCheck env st
  if p.1 then (.ok (), p.2)
  else
    let q := doStartServer env { p.2 with guard := true }
    (q.1, { q.2 with guard := false })

/-- The `createSession` method (src/src/provider.ts, lines 131-137): ensure
the server is up, then build a session over
`{ language: this.config.language, ...options }` — a caller-supplied
language wins, an absent one falls back to the configured language. -/
def createSession (env : ProviderEnv) (st : ProviderState) (options : STTOptions) :
    Except WhisperError WhisperLocalSession × ProviderState :=
  match ensureServerRunning env st with
  | (.error e, st1) => (.error e, st1)
  | (.ok _, st1) =>
    (.ok { serverUrl := st1.serverUrl
           options := { language := some (options.language.getD st1.config.language) }
           chunks := []
           ended := false }, st1)

/-- The `transcribe` method (src/src/provider.ts, lines 139-165): ensure
the server is up, then POST the whole buffer with
`options?.language ?? this.config.language` under the 60 s bound. The third
component lists the transcription requests issued: none when
`ensureServerRunning` fails. -/
def transcribe (env : ProviderEnv) (st : ProviderState) (audio : Bytes)
    (options : STTOptions) :
    Except WhisperError String × ProviderState × List TranscribeRequest :=
  match ensureServerRunning env st with
  | (.error e, st1) => (.error e, st1, [])
  | (.ok _, st1) =>
    let req : TranscribeRequest :=
      { url := st1.serverUrl ++ "/v1/audio/transcriptions"
        fileBytes := audio
        language := options.language.getD st1.config.language
        timeoutMs := TRANSCRIPTION_TIMEOUT_MS }
    (requestResult (env.http req), st1, [req])

/-- The one-shot flow `createSession` + `sendAudio` + `endAudio` +
`waitForTranscript(timeoutMs)`, assembled from the session operations above;
`transcribe` is claimed equivalent to it. -/
def transcribeViaSession (env : ProviderEnv) (st : ProviderState) (audio : Bytes)
    (options : STTOptions) (timeoutMs : Nat) :
    Except WhisperError String × ProviderState × List TranscribeRequest :=
  match createSession env st options with
  | (.error e, st1) => (.error e, st1, [])
  | (.ok sess, st1) =>
    match sendAudio sess audio with
    | .error e => (.error e, st1, [])
    | .ok sess1 =>
      let r := waitForTranscript env.http (endAudio sess1) timeoutMs
      (r.1, st1, r.2.2)

/-- The `shutdown` method (src/src/provider.ts, lines 179-190): when a
container id is held and dockerode is loaded, try stop then remove with any
error swallowed (`catch {}`: a stop failure also skips the remove); the
handle is cleared regardless. Returns the new state and the container
operations attempted; the return type is total, mirroring that the method
cannot throw. -/
def shutdown (env : ProviderEnv) (st : ProviderState) :
    ProviderState × List ContainerAction :=
  match st.containerId, st.dockerLoaded with
  | some cid, true =>
    ({ st with containerId := none },
      match env.stopResult cid with
      | .error _ => [.stop cid]
      | .ok _ => [.stop cid, .remove cid])
  | _, _ => ({ st with containerId := none }, [])

/-! Interleaved model of concurrent `ensureServerRunning` calls.

The method body (src/src/provider.ts, lines 192-203) has exactly one await
before the guard assignment: `await this.healthCheck()`. On the JS event
loop, everything from function entry through issuing the probe's fetch runs
synchronously (the guard check included), and everything from the probe's
resolution through `this._startingServer = this._doStartServer()...` runs
synchronously as well — `_doStartServer()` is invoked eagerly and runs up to
its own first await, so registering the guard and beginning the container
start form one atomic step. Each caller is therefore a two-step process,
and a scheduler picks which caller runs each step. The model stops at guard
registration; promise settlement and the `.finally` clearing are not needed
to count how many container starts begin. -/

/-- Program counter of one `ensureServerRunning` caller. `entry`: about to
run the synchronous prefix (guard check, then probe initiation).
`awaitingProbe k`: suspended on probe `k`. `doneHealthy`: returned because
the probe succeeded. `joined p`: returned the already-registered start
promise `p`. `registeredStart p`: registered promise `p` as the guard and
began a container start. -/
inductive CallerPC where
  | entry
  | awaitingProbe (k : Nat)
  | doneHealthy
  | joined (p : Nat)
  | registeredStart (p : Nat)
deriving DecidableEq, Repr

/-- State shared by the interleaved callers: the `_startingServer` guard
(as a promise id), the next fresh promise id, how many container-start
sequences have begun, the probe cursor, and each caller's program counter. -/
structure RaceState where
  guard : Option Nat
  nextPromise : Nat
  startCount : Nat
  probeCount : Nat
  callers : List CallerPC
deriving DecidableEq, Repr

/-- One scheduler step: run caller `i`'s next synchronous block. At `entry`,
the guard check: a set guard is joined (`return this._startingServer`),
an unset one lets the caller issue the next health probe and suspend. At
`awaitingProbe k`, the probe resolves: healthy returns, unhealthy registers
a fresh start promise as the guard and begins a container start. A finished
or absent caller leaves the state unchanged. -/
def stepCaller (probe : Nat → ProbeOutcome) (s : RaceState) (i : Nat) : RaceState :=
  match s.callers[i]? with
  | none => s
  | some pc =>
    match pc with
    | .entry =>
      match s.guard with
      | some p => { s with callers := s.callers.set i (.joined p) }
      | none =>
        { s with callers := s.callers.set i (.awaitingProbe s.probeCount)
                 probeCount := s.probeCount + 1 }
    | .awaitingProbe k =>
      if healthCheck (probe k) then
        { s with callers := s.callers.set i .doneHealthy }
      else
        { s with callers := s.callers.set i (.registeredStart s.nextPromise)
                 guard := some s.nextPromise
                 nextPromise := s.nextPromise + 1
                 startCount := s.startCount + 1 }
    | _ => s

/-- Run a schedule: a list of caller indices, each naming whose step runs
next. -/
def runSchedule (probe : Nat → ProbeOutcome) (s : RaceState) : List Nat → RaceState
  | [] => s
  | i :: rest => runSchedule probe (stepCaller probe s i) rest

/-- N callers about to enter `ensureServerRunning` on a provider whose
guard is unset and that has issued no probe yet. -/
def raceInit (n : Nat) : RaceState :=
  { guard := none
    nextPromise := 0
    startCount := 0
    probeCount := 0
    callers := List.replicate n .entry }

/-! Concrete environments and states used to instantiate theorems. -/

/-- An environment whose server never becomes healthy: every probe's fetch
rejects; container starts succeed; the inference endpoint would answer with
an empty JSON object. -/
def envAllDown : ProviderEnv :=
  { probe := fun _ => .failure
    pullResult := fun _ => .ok ()
    startResult := fun _ => .ok "cid"
    stopResult := fun _ => .ok ()
    removeResult := fun _ => .ok ()
    http := fun _ => .success none }

/-- A healthy environment whose inference endpoint always answers
with a JSON body whose `text` field is "hello world". -/
def envTextHello : ProviderEnv :=
  { probe := fun _ => .response 200
    pullResult := fun _ => .ok ()
    startResult := fun _ => .ok "cid"
    stopResult := fun _ => .ok ()
    removeResult := fun _ => .ok ()
    http := fun _ => .success (some "hello world") }

/-- A healthy environment whose inference endpoint always answers with a
JSON object that has no `text` field. -/
def envTextAbsent : ProviderEnv :=
  { probe := fun _ => .response 200
    pullResult := fun _ => .ok ()
    startResult := fun _ => .ok "cid"
    stopResult := fun _ => .ok ()
    removeResult := fun _ => .ok ()
    http := fun _ => .success none }

/-- The provider built from an empty configuration: all defaults. -/
def defaultProvider : ProviderState :=
  mkProvider ⟨none, none, none, none, none⟩

/-- A fresh session against the default server URL with no options. -/
def sampleSession : WhisperLocalSession :=
  { serverUrl := "http://localhost:8765"
    options := ⟨none⟩
    chunks := []
    ended := false }

/-- An already-ended session against the default server URL. -/
def endedSession : WhisperLocalSession :=
  { serverUrl := "http://localhost:8765"
    options := ⟨none⟩
    chunks := []
    ended := true }

/-! Claim theorems. -/

/-- C3 (amended): `validateConfig` fails with `InvalidModel` exactly when the
model is outside `VALID_MODELS`; it fails with `InvalidPort` exactly when the
model is valid and the port is outside 1024..65535 (the model check runs
first, so a configuration with both fields invalid fails with
`InvalidModel`); it succeeds exactly when both are valid; and constructing a
provider never fails: the constructor merely merges defaults and computes
the base URL, validating nothing. `validateConfig` is a function of the
configuration alone, so it performs no network or container operation. -/
theorem validateConfig_characterization (c : ResolvedConfig) (wc : WhisperLocalConfig) :
    (validateConfig c = .error (.invalidModel c.model) ↔ c.model ∉ VALID_MODELS)
    ∧ (validateConfig c = .error (.invalidPort c.port) ↔
        c.model ∈ VALID_MODELS ∧ (c.port < 1024 ∨ 65535 < c.port))
    ∧ (validateConfig c = .ok () ↔
        c.model ∈ VALID_MODELS ∧ 1024 ≤ c.port ∧ c.port ≤ 65535)
    ∧ mkProvider wc =
        { config := mergeConfig wc
          serverUrl := "http://localhost:" ++ toString (mergeConfig wc).port
          containerId := none
          dockerLoaded := false
          guard := false
          probeCount := 0
          startCount := 0 } := by
  by_cases hm : c.model ∈ VALID_MODELS <;>
    by_cases hp : c.port < 1024 ∨ 65535 < c.port <;>
      refine ⟨?_, ?_, ?_, rfl⟩ <;>
        simp [validateConfig, hm, hp] <;> omega

/-- A configuration with both an invalid model and an out-of-range port. -/
def invalidBothConfig : ResolvedConfig :=
  { image := "fedirz/faster-whisper-server:latest-cpu"
    model := "bogus"
    port := 80
    language := "en"
    wordTimestamps := false }

/-- C3 counterexample: a configuration whose port 80 is outside 1024..65535
yet whose failure is `InvalidModel`, not `InvalidPort`, because its model is
also invalid and the model check runs first — so "fails with `InvalidPort`
exactly when the port is outside the range" is false as stated. -/
theorem validateConfig_port_claim_counterexample :
    invalidBothConfig.port < 1024
    ∧ validateConfig invalidBothConfig = .error (.invalidModel "bogus")
    ∧ validateConfig invalidBothConfig ≠ .error (.invalidPort invalidBothConfig.port) := by
  refine ⟨by decide, rfl, ?_⟩
  intro hcon
  injection hcon with h2
  injection h2

/-- C4: on a session that has not ended, `sendAudio` appends the chunk to
the buffer; after `endAudio`, `sendAudio` always fails with `SessionClosed`
and never silently succeeds. -/
theorem sendAudio_after_endAudio (s : WhisperLocalSession) (a : Bytes)
    (h : s.ended = false) :
    sendAudio (endAudio s) a = .error .sessionClosed
    ∧ sendAudio s a = .ok { s with chunks := s.chunks ++ [a] } := by
  constructor
  · simp [sendAudio, endAudio]
  · simp [sendAudio, h]

/-- C4 witness at a concrete fresh session and chunk. -/
theorem sendAudio_after_endAudio_witness :
    sendAudio (endAudio sampleSession) [1, 2] = .error .sessionClosed
    ∧ sendAudio sampleSession [1, 2] = .ok { sampleSession with chunks := [[1, 2]] } :=
  sendAudio_after_endAudio sampleSession [1, 2] rfl

/-- C5: `waitForTranscript` on a session whose stream was not ended within
the wait window fails with `TranscriptTimeout` for every timeout, the
session comes back with buffer and `ended` flag unchanged and no remote
request is issued, and the session stays usable: a later `sendAudio` still
appends. -/
theorem waitForTranscript_timeout_contract (env : TranscribeEnv)
    (s : WhisperLocalSession) (timeoutMs : Nat) (a : Bytes)
    (h : s.ended = false) :
    waitForTranscript env s timeoutMs = (.error .transcriptTimeout, s, [])
    ∧ sendAudio s a = .ok { s with chunks := s.chunks ++ [a] } := by
  constructor
  · simp [waitForTranscript, h]
  · simp [sendAudio, h]

/-- C5 witness at a concrete never-ended session and the default 30 s
timeout. -/
theorem waitForTranscript_timeout_witness :
    waitForTranscript (fun _ => .success none) sampleSession 30000
      = (.error .transcriptTimeout, sampleSession, [])
    ∧ sendAudio sampleSession [3] = .ok { sampleSession with chunks := [[3]] } :=
  waitForTranscript_timeout_contract (fun _ => .success none) sampleSession 30000 [3] rfl

/-- C9: `healthCheck` is a total Boolean function of the probe outcome —
no exception escapes it — and it returns `true` exactly when the fetch came
back with a success (2xx) status; a rejected fetch (network error or the
5 s timeout) or a non-success status yields `false`. -/
theorem healthCheck_true_iff (o : ProbeOutcome) :
    healthCheck o = true ↔ ∃ status, o = .response status ∧ 200 ≤ status ∧ status < 300 := by
  cases o with
  | response status => simp [healthCheck, responseOk, and_assoc]
  | failure => simp [healthCheck]

/-- C10: after `close()`, `waitForTranscript` never fails with
`TranscriptTimeout` whatever the timeout: the session is ended with an empty
buffer, so the call proceeds immediately and issues the remote request with
an empty concatenated payload rather than rejecting the closed session. -/
theorem waitForTranscript_after_close (env : TranscribeEnv)
    (s : WhisperLocalSession) (timeoutMs : Nat) :
    waitForTranscript env (close s) timeoutMs
      = (requestResult (env (sessionRequest (close s))), close s, [sessionRequest (close s)])
    ∧ (sessionRequest (close s)).fileBytes = []
    ∧ (waitForTranscript env (close s) timeoutMs).1 ≠ .error .transcriptTimeout := by
  have h1 : waitForTranscript env (close s) timeoutMs
      = (requestResult (env (sessionRequest (close s))), close s,
         [sessionRequest (close s)]) := rfl
  refine ⟨h1, rfl, ?_⟩
  rw [h1]
  cases h : env (sessionRequest (close s)) <;> simp [requestResult, h]

/-- C6: when the inference endpoint answers successfully with JSON whose
`text` field is `txt`, both `transcribe` (after a passing health check) and
`waitForTranscript` (on an ended session) return `txt ?? ""` — exactly the
field's value when present, the empty string (not an error) when absent. -/
theorem transcript_text_roundtrip (env : ProviderEnv) (st : ProviderState)
    (s : WhisperLocalSession) (audio : Bytes) (options : STTOptions)
    (timeoutMs : Nat) (txt : Option String)
    (hhealthy : healthCheck (env.probe st.probeCount) = true)
    (hresp : ∀ r, env.http r = .success txt)
    (hended : s.ended = true) :
    (transcribe env st audio options).1 = .ok (txt.getD "")
    ∧ (waitForTranscript env.http s timeoutMs).1 = .ok (txt.getD "") := by
  constructor
  · simp [transcribe, ensureServerRunning, runHealthCheck, hhealthy, hresp,
      requestResult]
  · simp [waitForTranscript, hended, hresp, requestResult]

/-- C6 witness: against a healthy endpoint answering
`{"text":"hello world"}` both calls return "hello world"; against one
answering `{}` both return "". -/
theorem transcript_text_roundtrip_witness :
    (transcribe envTextHello defaultProvider [] ⟨none⟩).1 = .ok "hello world"
    ∧ (waitForTranscript envTextHello.http endedSession 30000).1 = .ok "hello world"
    ∧ (transcribe envTextAbsent defaultProvider [] ⟨none⟩).1 = .ok ""
    ∧ (waitForTranscript envTextAbsent.http endedSession 30000).1 = .ok "" :=
  ⟨(transcript_text_roundtrip envTextHello defaultProvider endedSession [] ⟨none⟩
      30000 (some "hello world") rfl (fun _ => rfl) rfl).1,
   (transcript_text_roundtrip envTextHello defaultProvider endedSession [] ⟨none⟩
      30000 (some "hello world") rfl (fun _ => rfl) rfl).2,
   (transcript_text_roundtrip envTextAbsent defaultProvider endedSession [] ⟨none⟩
      30000 none rfl (fun _ => rfl) rfl).1,
   (transcript_text_roundtrip envTextAbsent defaultProvider endedSession [] ⟨none⟩
      30000 none rfl (fun _ => rfl) rfl).2⟩

/-- C8: `shutdown` never fails (its type is total, mirroring the try/catch
that swallows every stop/remove error): the container handle is cleared
whatever the runtime outcomes, the resulting state does not depend on
those outcomes, a second consecutive call completes performing no container
operation, and on a provider that never started a container both calls
complete without any container operation at all. -/
theorem shutdown_clears_handle_idempotent (env env2 : ProviderEnv)
    (st : ProviderState) (wc : WhisperLocalConfig) :
    (shutdown env st).1.containerId = none
    ∧ (shutdown env st).1 = (shutdown env2 st).1
    ∧ shutdown env (shutdown env st).1 = ((shutdown env st).1, [])
    ∧ shutdown env (mkProvider wc) = (mkProvider wc, [])
    ∧ shutdown env (shutdown env (mkProvider wc)).1 = (mkProvider wc, []) := by
  obtain ⟨cfg, url, cid, dl, g, pc, sc⟩ := st
  refine ⟨?_, ?_, ?_, ?_, ?_⟩ <;>
    cases cid <;> cases dl <;> simp [shutdown, mkProvider]

/-- C1: the interleaving in which two concurrent `ensureServerRunning`
callers both pass the unset guard check and issue health probes before
either probe resolves (the server being unhealthy throughout) makes each
caller register its own start promise: two container-start sequences begin
and the callers await different promises. Only when the second caller
arrives after the first has registered the guard (schedule 0,0,1) does it
join the existing start, giving one start and a shared resolution. -/
theorem ensureRunning_concurrent_duplicate_start :
    (runSchedule (fun _ => .failure) (raceInit 2) [0, 1, 0, 1]).startCount = 2
    ∧ (runSchedule (fun _ => .failure) (raceInit 2) [0, 1, 0, 1]).callers
        = [.registeredStart 0, .registeredStart 1]
    ∧ (runSchedule (fun _ => .failure) (raceInit 2) [0, 0, 1]).startCount = 1
    ∧ (runSchedule (fun _ => .failure) (raceInit 2) [0, 0, 1]).callers
        = [.registeredStart 0, .joined 0] := by decide

/-- When every health probe fails, the poll loop of `_doStartServer` ends in
`ServerStartTimeout` and touches nothing in the provider state but the probe
cursor. -/
theorem healthPollLoop_all_fail (env : ProviderEnv)
    (h : ∀ k, healthCheck (env.probe k) = false) :
    ∀ (fuel : Nat) (st : ProviderState) (t : Nat),
      ∃ n, healthPollLoop env fuel st t
        = (.error .serverStartTimeout, { st with probeCount := n }) := by
  intro fuel
  induction fuel with
  | zero => exact fun st t => ⟨st.probeCount, rfl⟩
  | succ m ih =>
    intro st t
    by_cases ht : 60000 ≤ t
    · exact ⟨st.probeCount, by simp [healthPollLoop, ht]⟩
    · obtain ⟨n, hn⟩ := ih { st with probeCount := st.probeCount + 1 } (t + 1000)
      exact ⟨n, by simp [healthPollLoop, ht, runHealthCheck, h, hn]⟩

/-- When every health probe fails and the container start succeeds with id
`cid`, `_doStartServer` ends in `ServerStartTimeout`, having recorded the
container and counted one start attempt. -/
theorem doStartServer_all_fail (env : ProviderEnv)
    (h : ∀ k, healthCheck (env.probe k) = false)
    (st : ProviderState) (cid : String)
    (hstart : env.startResult st.startCount = .ok cid) :
    ∃ n, doStartServer env st
      = (.error .serverStartTimeout,
         { st with dockerLoaded := true, startCount := st.startCount + 1,
                   containerId := some cid, probeCount := n }) := by
  obtain ⟨n, hn⟩ := healthPollLoop_all_fail env h 100
    { st with dockerLoaded := true, startCount := st.startCount + 1,
              containerId := some cid } 0
  exact ⟨n, by simp [doStartServer, startContainer, hstart, hn]⟩

/-- When every health probe fails and the container start succeeds,
`ensureServerRunning` ends in `ServerStartTimeout` with the guard cleared
again. -/
theorem ensureServerRunning_all_fail (env : ProviderEnv)
    (h : ∀ k, healthCheck (env.probe k) = false)
    (st : ProviderState) (cid : String)
    (hstart : env.startResult st.startCount = .ok cid) :
    ∃ n, ensureServerRunning env st
      = (.error .serverStartTimeout,
         { st with guard := false, dockerLoaded := true,
                   startCount := st.startCount + 1,
                   containerId := some cid, probeCount := n }) := by
  obtain ⟨n, hn⟩ := doStartServer_all_fail env h
    { st with probeCount := st.probeCount + 1, guard := true } cid hstart
  exact ⟨n, by simp [ensureServerRunning, runHealthCheck, h, hn]⟩

/-- When every health probe fails, any `ensureServerRunning` call makes
exactly one fresh container-start attempt, whether or not the container
start itself succeeds. -/
theorem ensureServerRunning_attempts_start (env : ProviderEnv)
    (h : ∀ k, healthCheck (env.probe k) = false) (st : ProviderState) :
    (ensureServerRunning env st).2.startCount = st.startCount + 1 := by
  cases hs : env.startResult st.startCount with
  | ok cid =>
    obtain ⟨n, hn⟩ := ensureServerRunning_all_fail env h st cid hs
    simp [hn]
  | error e =>
    simp [ensureServerRunning, runHealthCheck, h, doStartServer,
      startContainer, hs]

/-- C2: when every health probe fails across the whole 60-second ceiling
after a successful container start, `ensureServerRunning` fails with
`ServerStartTimeout` and clears the start guard; `transcribe` then fails
with the same error having issued no transcription request; and a
subsequent `ensureServerRunning` call on the resulting state is free to
retry: it makes a fresh container-start attempt. -/
theorem ensureRunning_timeout_no_transcription (env : ProviderEnv)
    (st : ProviderState) (audio : Bytes) (options : STTOptions) (cid : String)
    (hall : ∀ k, healthCheck (env.probe k) = false)
    (hstart : env.startResult st.startCount = .ok cid) :
    (ensureServerRunning env st).1 = .error .serverStartTimeout
    ∧ (ensureServerRunning env st).2.guard = false
    ∧ (transcribe env st audio options).1 = .error .serverStartTimeout
    ∧ (transcribe env st audio options).2.2 = []
    ∧ (ensureServerRunning env (ensureServerRunning env st).2).2.startCount
        = (ensureServerRunning env st).2.startCount + 1 := by
  obtain ⟨n, hn⟩ := ensureServerRunning_all_fail env hall st cid hstart
  refine ⟨by simp [hn], by simp [hn], by simp [transcribe, hn],
    by simp [transcribe, hn], ?_⟩
  exact ensureServerRunning_attempts_start env hall _

/-- C2 witness: the default provider against an environment whose server
never becomes healthy though its container starts fine. -/
theorem ensureRunning_timeout_witness :
    (ensureServerRunning envAllDown defaultProvider).1 = .error .serverStartTimeout
    ∧ (ensureServerRunning envAllDown defaultProvider).2.guard = false
    ∧ (transcribe envAllDown defaultProvider [] ⟨none⟩).1 = .error .serverStartTimeout
    ∧ (transcribe envAllDown defaultProvider [] ⟨none⟩).2.2 = []
    ∧ (ensureServerRunning envAllDown
          (ensureServerRunning envAllDown defaultProvider).2).2.startCount
        = (ensureServerRunning envAllDown defaultProvider).2.startCount + 1 :=
  ensureRunning_timeout_no_transcription envAllDown defaultProvider [] ⟨none⟩
    "cid" (fun _ => rfl) rfl

/-- C7: `transcribe(audio, options)` coincides with
`createSession(options)` + `sendAudio(audio)` + `endAudio()` +
`waitForTranscript(timeoutMs)` for every wait bound: the same lifecycle
run, the same request — same URL, same payload, same language selection
(an explicit option wins, else the configured language, the session's
`?? "en"` fallback never firing since the configured language is always
set), the same 60-second remote bound — and the same result; the session
path having ended before waiting, the session-level default 30-second wait
plays no part. -/
theorem transcribe_eq_transcribeViaSession (env : ProviderEnv)
    (st : ProviderState) (audio : Bytes) (options : STTOptions)
    (timeoutMs : Nat) :
    transcribe env st audio options
      = transcribeViaSession env st audio options timeoutMs := by
  unfold transcribe transcribeViaSession createSession
  rcases hE : ensureServerRunning env st with ⟨r, st1⟩
  cases r with
  | error e => simp
  | ok u =>
    simp [sendAudio, waitForTranscript, endAudio, sessionRequest,
      requestResult]

end WhisperLocal
